import Mathlib

/-!
Verification of the request-dispatch and authentication-gating layer of the
Etsy MCP server (src/index.ts).  The TypeScript handlers are embedded as
executable Lean functions over a JSON value type; the HTTP transport is a
parameter, and every dispatch returns the list of HTTP requests it performed
together with either a result envelope or a thrown error.
-/

namespace EtsyMCP

/-- JSON values as they occur in MCP tool arguments and marketplace
responses.  Fields that are absent in a JavaScript object are modelled by
omission from the field list (JSON has no `undefined`, and
`JSON.stringify` drops object entries whose value is `undefined`, so an
absent field and an `undefined` field are observationally equal on the
wire). -/
inductive Json where
  | null
  | bool (b : Bool)
  | num (n : Int)
  | str (s : String)
  | arr (elems : List Json)
  | obj (fields : List (String × Json))

/-- JavaScript truthiness of a JSON value (`if (v)`). -/
def Json.truthy : Json → Bool
  | .null => false
  | .bool b => b
  | .num n => n != 0
  | .str s => s != ""
  | .arr _ => true
  | .obj _ => true

mutual

/-- JavaScript string coercion `String(v)`, as used by template-literal
path interpolation. -/
def Json.jsToString : Json → String
  | .null => "null"
  | .bool b => cond b "true" "false"
  | .num n => toString n
  | .str s => s
  | .arr xs => Json.arrJoin xs
  | .obj _ => "[object Object]"

/-- JavaScript `array.join(",")` (also `Array.prototype.toString`):
`null` elements become the empty string. -/
def Json.arrJoin : List Json → String
  | [] => ""
  | [.null] => ""
  | [x] => Json.jsToString x
  | .null :: xs => "," ++ Json.arrJoin xs
  | x :: xs => Json.jsToString x ++ "," ++ Json.arrJoin xs

end

/-- Hexadecimal digit for the low escapes of `JSON.stringify`. -/
def hexDigit (n : Nat) : String :=
  if n < 10 then toString n
  else if n = 10 then "a" else if n = 11 then "b" else if n = 12 then "c"
  else if n = 13 then "d" else if n = 14 then "e" else "f"

/-- Escape of one character inside a JSON string literal, following
`JSON.stringify`. -/
def escapeJsonChar (c : Char) : String :=
  if c = '"' then "\\\""
  else if c = '\\' then "\\\\"
  else if c = '\n' then "\\n"
  else if c = '\t' then "\\t"
  else if c = '\r' then "\\r"
  else if c.toNat = 8 then "\\b"
  else if c.toNat = 12 then "\\f"
  else if c.toNat < 32 then "\\u00" ++ hexDigit (c.toNat / 16) ++ hexDigit (c.toNat % 16)
  else String.singleton c

/-- A JSON string literal with surrounding quotes, following
`JSON.stringify`. -/
def quoteJson (s : String) : String :=
  "\"" ++ String.join (s.data.map escapeJsonChar) ++ "\""

/-- Indentation of `2 * d` spaces, as produced by `JSON.stringify(v, null, 2)`
at nesting depth `d`. -/
def jsonIndent (d : Nat) : String :=
  String.mk (List.replicate (2 * d) ' ')

mutual

/-- Pretty printing of a JSON value at nesting depth `d`, following
`JSON.stringify(v, null, 2)`. -/
def Json.stringifyAt : Nat → Json → String
  | _, .null => "null"
  | _, .bool b => cond b "true" "false"
  | _, .num n => toString n
  | _, .str s => quoteJson s
  | _, .arr [] => "[]"
  | d, .arr (x :: xs) =>
      "[\n" ++ Json.stringifyArrItems (d + 1) (x :: xs) ++ "\n" ++ jsonIndent d ++ "]"
  | _, .obj [] => "\x7b\x7d"
  | d, .obj (f :: fs) =>
      "\x7b\n" ++ Json.stringifyObjItems (d + 1) (f :: fs) ++ "\n" ++ jsonIndent d ++ "\x7d"

/-- Array items of `JSON.stringify(v, null, 2)`, one per line at depth `d`. -/
def Json.stringifyArrItems : Nat → List Json → String
  | _, [] => ""
  | d, [x] => jsonIndent d ++ Json.stringifyAt d x
  | d, x :: y :: xs =>
      jsonIndent d ++ Json.stringifyAt d x ++ ",\n" ++ Json.stringifyArrItems d (y :: xs)

/-- Object entries of `JSON.stringify(v, null, 2)`, one per line at depth `d`. -/
def Json.stringifyObjItems : Nat → List (String × Json) → String
  | _, [] => ""
  | d, [(k, v)] => jsonIndent d ++ quoteJson k ++ ": " ++ Json.stringifyAt d v
  | d, (k, v) :: f :: fs =>
      jsonIndent d ++ quoteJson k ++ ": " ++ Json.stringifyAt d v ++ ",\n" ++
        Json.stringifyObjItems d (f :: fs)

end

/-- The serialization `JSON.stringify(v, null, 2)` used for every envelope
text in the source. -/
def Json.stringify2 (v : Json) : String := Json.stringifyAt 0 v

/-- A tool-call argument bag: an untyped mapping from field name to JSON
value.  `args.field` in the source is `get?` here, with `none` playing the
role of JavaScript `undefined` for absent fields (MCP arguments are parsed
from JSON, which cannot contain `undefined`). -/
def ArgBag := List (String × Json)

/-- Field access `args.<k>`: the value if the bag binds `k`, `none`
(JavaScript `undefined`) otherwise. -/
def ArgBag.get? : ArgBag → String → Option Json
  | [], _ => none
  | (k, v) :: rest, key => if k = key then some v else ArgBag.get? rest key

/-- Template-literal interpolation of an argument into a URL path. -/
def ArgBag.interp (args : ArgBag) (k : String) : String :=
  match args.get? k with
  | some v => v.jsToString
  | none => "undefined"

/-- JavaScript truthiness of a possibly-absent value (`if (args.x)`). -/
def truthyOpt : Option Json → Bool
  | some v => v.truthy
  | none => false

/-- JavaScript `a || b` where `a` is a possibly-absent argument field, as in
`args.limit || 25`. -/
def jsOr (a : Option Json) (b : Json) : Json :=
  match a with
  | some v => if v.truthy then v else b
  | none => b

/-- The object entry produced by `if (args.<k>) data.<k> = args.<k>`:
present exactly when the supplied value is truthy. -/
def condTruthy (k : String) (v : Option Json) : List (String × Json) :=
  match v with
  | some j => if j.truthy then [(k, j)] else []
  | none => []

/-- The object entry produced by an unconditional `data.<k> = args.<f>` (or
by the `!== undefined` guard): present exactly when the field is supplied.
An absent field yields `undefined`, which `JSON.stringify` (for bodies) and
the axios params serializer (for queries) both omit. -/
def condDefined (k : String) (v : Option Json) : List (String × Json) :=
  match v with
  | some j => [(k, j)]
  | none => []

/-- The credential context (interface `EtsyConfig`). -/
structure EtsyConfig where
  apiKey : String
  shopId : Option String
  accessToken : Option String

/-- Truthiness of `this.config.accessToken`: present and non-empty. -/
def EtsyConfig.hasToken (cfg : EtsyConfig) : Bool :=
  match cfg.accessToken with
  | some t => t != ""
  | none => false

/-- HTTP verbs exposed by the axios instance. -/
inductive Verb where
  | get
  | post
  | put
  | patch
  | delete
deriving DecidableEq

/-- One outgoing HTTP request: verb, path, query parameters, body. -/
structure HttpRequest where
  verb : Verb
  path : String
  params : List (String × Json)
  body : Option Json

/-- An axios response carried by a transport failure. -/
structure AxiosResponse where
  data : Json
  status : Int

/-- A thrown JavaScript error, tagged the way `axios.isAxiosError`
distinguishes transport failures from every other exception. -/
structure JsError where
  isAxiosError : Bool
  message : String
  response : Option AxiosResponse

/-- The HTTP transport: the stub/spy standing for the axios instance.
It yields the response body or throws an error. -/
def Transport := HttpRequest → Except JsError Json

/-- One element of the result envelope content array. -/
structure ContentItem where
  type : String
  text : String

/-- The uniform result envelope returned by every handler. -/
structure Envelope where
  content : List ContentItem

/-- The envelope built around a JSON value by every handler:
`{content: [{type: "text", text: JSON.stringify(v, null, 2)}]}`. -/
def mkEnvelope (v : Json) : Envelope :=
  ⟨[⟨"text", Json.stringify2 v⟩]⟩

/-- The authorization-refusal body shared by all nine mutating handlers. -/
def authRequiredJson : Json :=
  .obj [("error", .str "OAuth access token required. Set ETSY_ACCESS_TOKEN environment variable.")]

/-- The envelope returned when a mutating handler finds no access token. -/
def authRequiredEnvelope : Envelope := mkEnvelope authRequiredJson

/-- The outcome of one handler run: the HTTP requests performed (zero or
one) and either the returned envelope or a thrown error. -/
def HandlerResult := List HttpRequest × Except JsError Envelope

/-- Perform the handler's single HTTP call and wrap the response body
(after the handler's post-processing `fmt`, the identity except for the two
delete handlers) into an envelope; a thrown transport error propagates to
the dispatcher's catch block. -/
def runRequest (tr : Transport) (req : HttpRequest) (fmt : Json → Json) : HandlerResult :=
  match tr req with
  | .ok d => ([req], .ok (mkEnvelope (fmt d)))
  | .error e => ([req], .error e)

/-- Query parameters of `searchListings` (index.ts:1986-1995): `keywords`
passed through, `limit`/`offset` defaulted with `||`, four optional filters
added only when truthy. -/
def searchListingsParams (args : ArgBag) : List (String × Json) :=
  condDefined "keywords" (args.get? "keywords") ++
  [("limit", jsOr (args.get? "limit") (.num 25)),
   ("offset", jsOr (args.get? "offset") (.num 0))] ++
  condTruthy "min_price" (args.get? "min_price") ++
  condTruthy "max_price" (args.get? "max_price") ++
  condTruthy "sort_on" (args.get? "sort_on") ++
  condTruthy "sort_order" (args.get? "sort_order")

/-- Handler `searchListings` (index.ts:1985-2009). -/
def searchListings (tr : Transport) (args : ArgBag) : HandlerResult :=
  runRequest tr ⟨.get, "/application/listings/active", searchListingsParams args, none⟩ id

/-- Handler `getListing` (index.ts:2011-2028).  `args.includes?.join(",")`
short-circuits to `undefined` on an absent or `null` field, joins an array,
and throws a `TypeError` on any other value (numbers, strings and plain
objects have no callable `join` member). -/
def getListing (tr : Transport) (args : ArgBag) : HandlerResult :=
  match args.get? "includes" with
  | none =>
      runRequest tr ⟨.get, "/application/listings/" ++ args.interp "listing_id", [], none⟩ id
  | some .null =>
      runRequest tr ⟨.get, "/application/listings/" ++ args.interp "listing_id", [], none⟩ id
  | some (.arr xs) =>
      let includes := Json.arrJoin xs
      let params := if includes != "" then [("includes", Json.str includes)] else []
      runRequest tr ⟨.get, "/application/listings/" ++ args.interp "listing_id", params, none⟩ id
  | some _ =>
      ([], .error ⟨false, "args.includes.join is not a function", none⟩)

/-- Handler `getShop` (index.ts:2030-2041). -/
def getShop (tr : Transport) (args : ArgBag) : HandlerResult :=
  runRequest tr ⟨.get, "/application/shops/" ++ args.interp "shop_id", [], none⟩ id

/-- Handler `getShopListings` (index.ts:2043-2063): `limit`, `offset` and
`state` are always sent, defaulted with `||` to `25`, `0` and `"active"`. -/
def getShopListings (tr : Transport) (args : ArgBag) : HandlerResult :=
  runRequest tr
    ⟨.get, "/application/shops/" ++ args.interp "shop_id" ++ "/listings",
     [("limit", jsOr (args.get? "limit") (.num 25)),
      ("offset", jsOr (args.get? "offset") (.num 0)),
      ("state", jsOr (args.get? "state") (.str "active"))], none⟩ id

/-- Handler `searchShops` (index.ts:2065-2082). -/
def searchShops (tr : Transport) (args : ArgBag) : HandlerResult :=
  runRequest tr
    ⟨.get, "/application/shops",
     condDefined "shop_name" (args.get? "shop_name") ++
     [("limit", jsOr (args.get? "limit") (.num 25)),
      ("offset", jsOr (args.get? "offset") (.num 0))], none⟩ id

/-- Handler `getListingInventory` (index.ts:2084-2097). -/
def getListingInventory (tr : Transport) (args : ArgBag) : HandlerResult :=
  runRequest tr
    ⟨.get, "/application/listings/" ++ args.interp "listing_id" ++ "/inventory", [], none⟩ id

/-- Handler `getListingImages` (index.ts:2099-2112). -/
def getListingImages (tr : Transport) (args : ArgBag) : HandlerResult :=
  runRequest tr
    ⟨.get, "/application/listings/" ++ args.interp "listing_id" ++ "/images", [], none⟩ id

/-- Handler `getShopSections` (index.ts:2114-2127). -/
def getShopSections (tr : Transport) (args : ArgBag) : HandlerResult :=
  runRequest tr
    ⟨.get, "/application/shops/" ++ args.interp "shop_id" ++ "/sections", [], none⟩ id

/-- Handler `getTrendingListings` (index.ts:2129-2147). -/
def getTrendingListings (tr : Transport) (args : ArgBag) : HandlerResult :=
  runRequest tr
    ⟨.get, "/application/listings/trending",
     [("limit", jsOr (args.get? "limit") (.num 25)),
      ("offset", jsOr (args.get? "offset") (.num 0))], none⟩ id

/-- Handler `findShops` (index.ts:2149-2167). -/
def findShops (tr : Transport) (args : ArgBag) : HandlerResult :=
  runRequest tr
    ⟨.get, "/application/shops",
     [("limit", jsOr (args.get? "limit") (.num 25)),
      ("offset", jsOr (args.get? "offset") (.num 0))] ++
     condTruthy "location" (args.get? "location"), none⟩ id

/-- Request body of `createListing` (index.ts:2189-2201): seven required
fields copied unconditionally, three optional fields added when truthy. -/
def createListingBody (args : ArgBag) : Json :=
  .obj (condDefined "quantity" (args.get? "quantity") ++
        condDefined "title" (args.get? "title") ++
        condDefined "description" (args.get? "description") ++
        condDefined "price" (args.get? "price") ++
        condDefined "who_made" (args.get? "who_made") ++
        condDefined "when_made" (args.get? "when_made") ++
        condDefined "taxonomy_id" (args.get? "taxonomy_id") ++
        condTruthy "shipping_profile_id" (args.get? "shipping_profile_id") ++
        condTruthy "shop_section_id" (args.get? "shop_section_id") ++
        condTruthy "tags" (args.get? "tags"))

/-- Handler `createListing` (index.ts:2170-2216). -/
def createListing (cfg : EtsyConfig) (tr : Transport) (args : ArgBag) : HandlerResult :=
  if !cfg.hasToken then ([], .ok authRequiredEnvelope)
  else
    runRequest tr
      ⟨.post, "/application/shops/" ++ args.interp "shop_id" ++ "/listings",
       [], some (createListingBody args)⟩ id

/-- Request body of `updateListing` (index.ts:2237-2243): five fields added
when truthy, `shop_section_id` added whenever it is not `undefined`. -/
def updateListingBody (args : ArgBag) : Json :=
  .obj (condTruthy "title" (args.get? "title") ++
        condTruthy "description" (args.get? "description") ++
        condTruthy "price" (args.get? "price") ++
        condTruthy "quantity" (args.get? "quantity") ++
        condTruthy "tags" (args.get? "tags") ++
        condDefined "shop_section_id" (args.get? "shop_section_id"))

/-- Handler `updateListing` (index.ts:2218-2258). -/
def updateListing (cfg : EtsyConfig) (tr : Transport) (args : ArgBag) : HandlerResult :=
  if !cfg.hasToken then ([], .ok authRequiredEnvelope)
  else
    runRequest tr
      ⟨.patch,
       "/application/shops/" ++ args.interp "shop_id" ++ "/listings/" ++ args.interp "listing_id",
       [], some (updateListingBody args)⟩ id

/-- The constant success body of `deleteListing`. -/
def deleteListingSuccessJson : Json :=
  .obj [("success", .bool true), ("message", .str "Listing deleted successfully")]

/-- Handler `deleteListing` (index.ts:2260-2295): on success the envelope
carries a constant object, not the response body. -/
def deleteListing (cfg : EtsyConfig) (tr : Transport) (args : ArgBag) : HandlerResult :=
  if !cfg.hasToken then ([], .ok authRequiredEnvelope)
  else
    runRequest tr ⟨.delete, "/application/listings/" ++ args.interp "listing_id", [], none⟩
      (fun _ => deleteListingSuccessJson)

/-- Request body of `updateListingInventory` (index.ts:2316-2322). -/
def updateListingInventoryBody (args : ArgBag) : Json :=
  .obj (condDefined "products" (args.get? "products") ++
        condTruthy "price_on_property" (args.get? "price_on_property") ++
        condTruthy "quantity_on_property" (args.get? "quantity_on_property") ++
        condTruthy "sku_on_property" (args.get? "sku_on_property"))

/-- Handler `updateListingInventory` (index.ts:2297-2337). -/
def updateListingInventory (cfg : EtsyConfig) (tr : Transport) (args : ArgBag) : HandlerResult :=
  if !cfg.hasToken then ([], .ok authRequiredEnvelope)
  else
    runRequest tr
      ⟨.put, "/application/listings/" ++ args.interp "listing_id" ++ "/inventory",
       [], some (updateListingInventoryBody args)⟩ id

/-- Request body of `uploadListingImage` (index.ts:2360-2365): the bag field
`image_url` is copied under the body key `image`. -/
def uploadListingImageBody (args : ArgBag) : Json :=
  .obj (condDefined "image" (args.get? "image_url") ++
        condTruthy "rank" (args.get? "rank") ++
        condTruthy "alt_text" (args.get? "alt_text"))

/-- Handler `uploadListingImage` (index.ts:2339-2380). -/
def uploadListingImage (cfg : EtsyConfig) (tr : Transport) (args : ArgBag) : HandlerResult :=
  if !cfg.hasToken then ([], .ok authRequiredEnvelope)
  else
    runRequest tr
      ⟨.post,
       "/application/shops/" ++ args.interp "shop_id" ++ "/listings/" ++
         args.interp "listing_id" ++ "/images",
       [], some (uploadListingImageBody args)⟩ id

/-- Handler `createShopSection` (index.ts:2382-2414): body `{title: args.title}`. -/
def createShopSection (cfg : EtsyConfig) (tr : Transport) (args : ArgBag) : HandlerResult :=
  if !cfg.hasToken then ([], .ok authRequiredEnvelope)
  else
    runRequest tr
      ⟨.post, "/application/shops/" ++ args.interp "shop_id" ++ "/sections",
       [], some (.obj (condDefined "title" (args.get? "title")))⟩ id

/-- Handler `updateShopSection` (index.ts:2416-2448). -/
def updateShopSection (cfg : EtsyConfig) (tr : Transport) (args : ArgBag) : HandlerResult :=
  if !cfg.hasToken then ([], .ok authRequiredEnvelope)
  else
    runRequest tr
      ⟨.put,
       "/application/shops/" ++ args.interp "shop_id" ++ "/sections/" ++
         args.interp "shop_section_id",
       [], some (.obj (condDefined "title" (args.get? "title")))⟩ id

/-- The constant success body of `deleteShopSection`. -/
def deleteShopSectionSuccessJson : Json :=
  .obj [("success", .bool true), ("message", .str "Shop section deleted successfully")]

/-- Handler `deleteShopSection` (index.ts:2450-2485): on success the
envelope carries a constant object, not the response body. -/
def deleteShopSection (cfg : EtsyConfig) (tr : Transport) (args : ArgBag) : HandlerResult :=
  if !cfg.hasToken then ([], .ok authRequiredEnvelope)
  else
    runRequest tr
      ⟨.delete,
       "/application/shops/" ++ args.interp "shop_id" ++ "/sections/" ++
         args.interp "shop_section_id",
       [], none⟩
      (fun _ => deleteShopSectionSuccessJson)

/-- Request body of `updateShop` (index.ts:2506-2510): four optional fields
added when truthy. -/
def updateShopBody (args : ArgBag) : Json :=
  .obj (condTruthy "title" (args.get? "title") ++
        condTruthy "announcement" (args.get? "announcement") ++
        condTruthy "sale_message" (args.get? "sale_message") ++
        condTruthy "policy_welcome" (args.get? "policy_welcome"))

/-- Handler `updateShop` (index.ts:2487-2525). -/
def updateShop (cfg : EtsyConfig) (tr : Transport) (args : ArgBag) : HandlerResult :=
  if !cfg.hasToken then ([], .ok authRequiredEnvelope)
  else
    runRequest tr
      ⟨.put, "/application/shops/" ++ args.interp "shop_id", [], some (updateShopBody args)⟩ id

/-- The ten read (key-only) tool names, in the order of the dispatch switch. -/
def readTools : List String :=
  ["search_listings", "get_listing", "get_shop", "get_shop_listings", "search_shops",
   "get_listing_inventory", "get_listing_images", "get_shop_sections",
   "get_trending_listings", "find_shops"]

/-- The nine mutating (token-required) tool names, in the order of the
dispatch switch. -/
def mutatingTools : List String :=
  ["create_listing", "update_listing", "delete_listing", "update_listing_inventory",
   "upload_listing_image", "create_shop_section", "update_shop_section",
   "delete_shop_section", "update_shop"]

/-- The registry of all nineteen tool names the dispatch switch accepts. -/
def knownTools : List String := readTools ++ mutatingTools

/-- The switch of the `CallToolRequestSchema` handler (index.ts:1357-1399):
route the operation name to its handler, or throw `Unknown tool: <name>`
(a plain `Error`, not an axios error). -/
def selectHandler (cfg : EtsyConfig) (tr : Transport) (name : String) (args : ArgBag) :
    HandlerResult :=
  if name = "search_listings" then searchListings tr args
  else if name = "get_listing" then getListing tr args
  else if name = "get_shop" then getShop tr args
  else if name = "get_shop_listings" then getShopListings tr args
  else if name = "search_shops" then searchShops tr args
  else if name = "get_listing_inventory" then getListingInventory tr args
  else if name = "get_listing_images" then getListingImages tr args
  else if name = "get_shop_sections" then getShopSections tr args
  else if name = "get_trending_listings" then getTrendingListings tr args
  else if name = "find_shops" then findShops tr args
  else if name = "create_listing" then createListing cfg tr args
  else if name = "update_listing" then updateListing cfg tr args
  else if name = "delete_listing" then deleteListing cfg tr args
  else if name = "update_listing_inventory" then updateListingInventory cfg tr args
  else if name = "upload_listing_image" then uploadListingImage cfg tr args
  else if name = "create_shop_section" then createShopSection cfg tr args
  else if name = "update_shop_section" then updateShopSection cfg tr args
  else if name = "delete_shop_section" then deleteShopSection cfg tr args
  else if name = "update_shop" then updateShop cfg tr args
  else ([], .error ⟨false, "Unknown tool: " ++ name, none⟩)

/-- The error body built by the dispatcher's catch block (index.ts:1406-1413):
`{error: error.response?.data || error.message, status: error.response?.status}`,
where `JSON.stringify` omits the `status` entry when there is no response. -/
def axiosFailureJson (e : JsError) : Json :=
  .obj ([("error",
          match e.response with
          | some r => if r.data.truthy then r.data else .str e.message
          | none => .str e.message)] ++
        (match e.response with
         | some r => [("status", .num r.status)]
         | none => []))

/-- The full `CallToolRequestSchema` handler (index.ts:1353-1420): run the
switch under a try/catch that converts axios errors into error envelopes
and rethrows everything else. -/
def callTool (cfg : EtsyConfig) (tr : Transport) (name : String) (args : ArgBag) :
    HandlerResult :=
  match selectHandler cfg tr name args with
  | (reqs, .ok env) => (reqs, .ok env)
  | (reqs, .error e) =>
      if e.isAxiosError then (reqs, .ok (mkEnvelope (axiosFailureJson e)))
      else (reqs, .error e)

/-- The explicit configuration object handed to `createServer`; after the
optional-chaining accesses `config?.<field>` every field is
possibly-absent. -/
structure ConfigInput where
  apiKey : Option String
  shopId : Option String
  accessToken : Option String

/-- The three environment variables `createServer` reads. -/
structure ProcessEnv where
  etsyApiKey : Option String
  etsyShopId : Option String
  etsyAccessToken : Option String

/-- JavaScript truthiness of a possibly-absent string: present and
non-empty. -/
def strTruthy : Option String → Bool
  | some s => s != ""
  | none => false

/-- JavaScript `a || b` on possibly-absent strings. -/
def strOr (a b : Option String) : Option String :=
  if strTruthy a then a else b

/-- Credential resolution of `createServer` (index.ts:3811-3815):
explicit configuration first, then the environment variable; the
identifying key additionally falls back to the empty string. -/
def resolveEtsyConfig (config : Option ConfigInput) (env : ProcessEnv) : EtsyConfig :=
  ⟨(strOr (strOr (config.bind ConfigInput.apiKey) env.etsyApiKey) (some "")).getD "",
   strOr (config.bind ConfigInput.shopId) env.etsyShopId,
   strOr (config.bind ConfigInput.accessToken) env.etsyAccessToken⟩

/-- The startup failure thrown when the resolved identifying key is empty. -/
def missingKeyError : JsError :=
  ⟨false, "ETSY_API_KEY is required. Provide it via config or environment variable.", none⟩

/-- `createServer` (index.ts:3810-3823): resolve the credentials, throw if
the identifying key is falsy, otherwise construct the server instance
(represented by its immutable credential context). -/
def createServer (config : Option ConfigInput) (env : ProcessEnv) : Except JsError EtsyConfig :=
  let etsyConfig := resolveEtsyConfig config env
  if etsyConfig.apiKey = "" then .error missingKeyError
  else .ok etsyConfig

/-- Lookup of a field inside a built request-parameter or request-body
object (same association-list lookup as `ArgBag.get?`). -/
def fieldLookup : List (String × Json) → String → Option Json
  | [], _ => none
  | (k, v) :: rest, key => if k = key then some v else fieldLookup rest key

/-- Field access on a JSON object value; `none` on non-objects. -/
def Json.field (j : Json) (k : String) : Option Json :=
  match j with
  | .obj fs => fieldLookup fs k
  | _ => none

/-- Field access on a request body (absent body reads as no fields). -/
def HttpRequest.bodyField (req : HttpRequest) (k : String) : Option Json :=
  match req.body with
  | some j => j.field k
  | none => none

theorem fieldLookup_append (xs ys : List (String × Json)) (k : String) :
    fieldLookup (xs ++ ys) k = (fieldLookup xs k).or (fieldLookup ys k) := by
  induction xs with
  | nil => simp [fieldLookup]
  | cons p rest ih =>
      obtain ⟨k', v⟩ := p
      by_cases h : k' = k <;> simp [fieldLookup, h, ih]

theorem fieldLookup_condTruthy (k' k : String) (v : Option Json) :
    fieldLookup (condTruthy k' v) k =
      if k' = k then
        (match v with
         | some j => if j.truthy then some j else none
         | none => none)
      else none := by
  match v with
  | none => simp [condTruthy, fieldLookup]
  | some j =>
      by_cases ht : j.truthy <;> by_cases h : k' = k <;>
        simp [condTruthy, fieldLookup, ht, h]

theorem fieldLookup_condDefined (k' k : String) (v : Option Json) :
    fieldLookup (condDefined k' v) k = if k' = k then v else none := by
  match v with
  | none => simp [condDefined, fieldLookup]
  | some j => by_cases h : k' = k <;> simp [condDefined, fieldLookup, h]

/-- C1: every mutating operation dispatched while the credential context
holds no (non-empty) access token performs zero HTTP calls and returns
(does not throw) the envelope whose text is the pretty-printed JSON object
`{error: "OAuth access token required. Set ETSY_ACCESS_TOKEN environment
variable."}` (a message mentioning the OAuth token); `authRequiredEnvelope`
is by definition `mkEnvelope authRequiredJson`, the 2-space
`JSON.stringify` of that object. -/
theorem c1_mutating_without_token_refuses (name : String) (hname : name ∈ mutatingTools)
    (cfg : EtsyConfig) (tr : Transport) (args : ArgBag) (htok : cfg.hasToken = false) :
    callTool cfg tr name args = ([], .ok authRequiredEnvelope) := by
  simp only [mutatingTools, List.mem_cons, List.not_mem_nil, or_false] at hname
  rcases hname with rfl | rfl | rfl | rfl | rfl | rfl | rfl | rfl | rfl <;>
    simp [callTool, selectHandler, createListing, updateListing, deleteListing,
      updateListingInventory, uploadListingImage, createShopSection, updateShopSection,
      deleteShopSection, updateShop, htok]

/-- Witness for C1 at a concrete input: `update_shop` with no token
configured and a transport spy; the dispatch performs zero calls and
returns the authorization-required envelope. -/
theorem c1_mutating_without_token_refuses_witness :
    "update_shop" ∈ mutatingTools ∧
    EtsyConfig.hasToken ⟨"key", none, none⟩ = false ∧
    callTool ⟨"key", none, none⟩ (fun _ => .ok .null) "update_shop"
        [("shop_id", .num 1), ("title", .str "t")] =
      ([], .ok authRequiredEnvelope) :=
  ⟨by simp [mutatingTools], rfl,
   c1_mutating_without_token_refuses "update_shop" (by simp [mutatingTools])
     ⟨"key", none, none⟩ (fun _ => .ok .null)
     [("shop_id", .num 1), ("title", .str "t")] rfl⟩

/-- C2: the registry holds exactly nineteen tool names, and dispatching any
name outside it throws the `Unknown tool` error (a plain error, not
converted into a result envelope by the catch block, which only converts
axios errors) after performing zero HTTP calls. -/
theorem c2_unknown_tool_throws (name : String) (hname : name ∉ knownTools)
    (cfg : EtsyConfig) (tr : Transport) (args : ArgBag) :
    knownTools.length = 19 ∧
    callTool cfg tr name args = ([], .error ⟨false, "Unknown tool: " ++ name, none⟩) := by
  refine ⟨by simp [knownTools, readTools, mutatingTools], ?_⟩
  simp only [knownTools, readTools, mutatingTools, List.mem_append, List.mem_cons,
    List.not_mem_nil, or_false, not_or] at hname
  obtain ⟨⟨h1, h2, h3, h4, h5, h6, h7, h8, h9, h10⟩,
    h11, h12, h13, h14, h15, h16, h17, h18, h19⟩ := hname
  simp [callTool, selectHandler, h1, h2, h3, h4, h5, h6, h7, h8, h9, h10,
    h11, h12, h13, h14, h15, h16, h17, h18, h19]

/-- Witness for C2 at a concrete input: the name `get_listingg` is not in
the registry; dispatch performs no HTTP call and the error propagates. -/
theorem c2_unknown_tool_throws_witness :
    callTool ⟨"key", none, none⟩ (fun _ => .ok .null) "get_listingg" [] =
      ([], .error ⟨false, "Unknown tool: get_listingg", none⟩) :=
  (c2_unknown_tool_throws "get_listingg"
    (by simp [knownTools, readTools, mutatingTools])
    ⟨"key", none, none⟩ (fun _ => .ok .null) []).2

/-- Whether `args.includes?.join(",")` evaluates without a `TypeError`:
the field is absent, `null`, or an array. -/
def includesJoinable (args : ArgBag) : Bool :=
  match args.get? "includes" with
  | none => true
  | some .null => true
  | some (.arr _) => true
  | some _ => false

/-- C3: for every known operation whose handler reaches its HTTP call
(token present for mutating operations; for `get_listing` the `includes`
field must not make `join` throw), a thrown axios error is caught and
converted into the envelope whose text is the pretty-printed
`{error: response.data-if-truthy-else-message, status: status-if-any}`
object, while a thrown non-axios error is re-thrown to the caller
uncaught. -/
theorem c3_transport_failure_handling (name : String) (hname : name ∈ knownTools)
    (cfg : EtsyConfig) (args : ArgBag) (e : JsError) (htok : cfg.hasToken = true)
    (hinc : name = "get_listing" → includesJoinable args = true) :
    (e.isAxiosError = true →
      (callTool cfg (fun _ => .error e) name args).2 =
        .ok (mkEnvelope (axiosFailureJson e))) ∧
    (e.isAxiosError = false →
      (callTool cfg (fun _ => .error e) name args).2 = .error e) := by
  simp only [knownTools, readTools, mutatingTools, List.mem_append, List.mem_cons,
    List.not_mem_nil, or_false] at hname
  rcases hname with (rfl | rfl | rfl | rfl | rfl | rfl | rfl | rfl | rfl | rfl) |
    rfl | rfl | rfl | rfl | rfl | rfl | rfl | rfl | rfl
  case inl.inr.inl =>
    have hj := hinc rfl
    constructor <;> intro he
    all_goals
      rcases hgi : args.get? "includes" with - | v
      case' some => cases v
      all_goals
        simp [includesJoinable, hgi] at hj ⊢ <;>
          simp [callTool, selectHandler, getListing, runRequest, hgi, he]
  all_goals
    constructor <;> intro he <;>
      simp [callTool, selectHandler, searchListings, getShop, getShopListings,
        searchShops, getListingInventory, getListingImages, getShopSections,
        getTrendingListings, findShops, createListing, updateListing, deleteListing,
        updateListingInventory, uploadListingImage, createShopSection,
        updateShopSection, deleteShopSection, updateShop, runRequest, htok, he]

/-- Witness for C3 at a concrete input: a stubbed HTTP 404 on `get_listing`
with `listing_id` 999 yields an envelope whose text is the pretty-printed
`{error: ..., status: 404}` object. -/
theorem c3_transport_failure_handling_witness :
    "get_listing" ∈ knownTools ∧
    (callTool ⟨"key", none, some "tok"⟩
        (fun _ => .error ⟨true, "Request failed with status code 404",
          some ⟨.obj [("error", .str "Listing not found")], 404⟩⟩)
        "get_listing" [("listing_id", .num 999)]).2 =
      .ok (mkEnvelope (.obj [("error", .obj [("error", .str "Listing not found")]),
        ("status", .num 404)])) :=
  ⟨by simp [knownTools, readTools],
   (c3_transport_failure_handling "get_listing" (by simp [knownTools, readTools])
     ⟨"key", none, some "tok"⟩ [("listing_id", .num 999)]
     ⟨true, "Request failed with status code 404",
       some ⟨.obj [("error", .str "Listing not found")], 404⟩⟩
     rfl (fun _ => rfl)).1 rfl⟩

/-- C4: `search_listings` invoked with neither `limit` nor `offset` sends
the single outgoing GET with query `limit=25` and `offset=0`;
`get_shop_listings` invoked without `state` sends `state=active`, together
with `limit=25` and `offset=0` whenever those are also absent. -/
theorem c4_default_substitution (cfg : EtsyConfig) (tr : Transport) (args args' : ArgBag)
    (hlim : args.get? "limit" = none) (hoff : args.get? "offset" = none)
    (hstate : args'.get? "state" = none) :
    (∃ req, (callTool cfg tr "search_listings" args).1 = [req] ∧
      fieldLookup req.params "limit" = some (.num 25) ∧
      fieldLookup req.params "offset" = some (.num 0)) ∧
    (∃ req, (callTool cfg tr "get_shop_listings" args').1 = [req] ∧
      fieldLookup req.params "state" = some (.str "active") ∧
      (args'.get? "limit" = none → fieldLookup req.params "limit" = some (.num 25)) ∧
      (args'.get? "offset" = none → fieldLookup req.params "offset" = some (.num 0))) := by
  constructor
  · refine ⟨⟨.get, "/application/listings/active", searchListingsParams args, none⟩, ?_, ?_, ?_⟩
    · rcases htr : tr ⟨.get, "/application/listings/active", searchListingsParams args, none⟩
        with e | d
      · by_cases he : e.isAxiosError <;>
          simp [callTool, selectHandler, searchListings, runRequest, htr, he]
      · simp [callTool, selectHandler, searchListings, runRequest, htr]
    · simp [searchListingsParams, fieldLookup_append, fieldLookup_condTruthy,
        fieldLookup_condDefined, fieldLookup, hlim, jsOr]
    · simp [searchListingsParams, fieldLookup_append, fieldLookup_condTruthy,
        fieldLookup_condDefined, fieldLookup, hoff, jsOr]
  · refine ⟨⟨.get, "/application/shops/" ++ args'.interp "shop_id" ++ "/listings",
      [("limit", jsOr (args'.get? "limit") (.num 25)),
       ("offset", jsOr (args'.get? "offset") (.num 0)),
       ("state", jsOr (args'.get? "state") (.str "active"))], none⟩, ?_, ?_, ?_, ?_⟩
    · rcases htr : tr ⟨.get, "/application/shops/" ++ args'.interp "shop_id" ++ "/listings",
        [("limit", jsOr (args'.get? "limit") (.num 25)),
         ("offset", jsOr (args'.get? "offset") (.num 0)),
         ("state", jsOr (args'.get? "state") (.str "active"))], none⟩ with e | d
      · by_cases he : e.isAxiosError <;>
          simp [callTool, selectHandler, getShopListings, runRequest, htr, he]
      · simp [callTool, selectHandler, getShopListings, runRequest, htr]
    · simp [fieldLookup, hstate, jsOr]
    · intro h; simp [fieldLookup, h, jsOr]
    · intro h; simp [fieldLookup, h, jsOr]

/-- Witness for C4 at a concrete input: empty argument bags produce
queries carrying the three defaults. -/
theorem c4_default_substitution_witness :
    (∃ req, (callTool ⟨"key", none, none⟩ (fun _ => .ok .null) "search_listings" []).1 = [req] ∧
      fieldLookup req.params "limit" = some (.num 25) ∧
      fieldLookup req.params "offset" = some (.num 0)) ∧
    (∃ req,
      (callTool ⟨"key", none, none⟩ (fun _ => .ok .null) "get_shop_listings"
          [("shop_id", .num 7)]).1 = [req] ∧
      fieldLookup req.params "state" = some (.str "active") ∧
      (ArgBag.get? [("shop_id", Json.num 7)] "limit" = none →
        fieldLookup req.params "limit" = some (.num 25)) ∧
      (ArgBag.get? [("shop_id", Json.num 7)] "offset" = none →
        fieldLookup req.params "offset" = some (.num 0))) :=
  c4_default_substitution ⟨"key", none, none⟩ (fun _ => .ok .null) []
    [("shop_id", .num 7)] rfl rfl rfl

theorem runRequest_fst (tr : Transport) (req : HttpRequest) (fmt : Json → Json) :
    (runRequest tr req fmt).1 = [req] := by
  cases h : tr req <;> simp [runRequest, h]

theorem callTool_fst (cfg : EtsyConfig) (tr : Transport) (name : String) (args : ArgBag) :
    (callTool cfg tr name args).1 = (selectHandler cfg tr name args).1 := by
  rcases h : selectHandler cfg tr name args with ⟨reqs, out⟩
  cases out with
  | ok env => simp [callTool, h]
  | error e => by_cases he : e.isAxiosError <;> simp [callTool, h, he]

/-- Counterexample to C5 as stated: `update_listing` invoked (token
configured) with only `price` set among the optional mutable fields, at the
supplied price value `0`, produces a PATCH body with no keys at all — not
`{price: 0}` — because the handler guards every field except
`shop_section_id` with a JavaScript truthiness test. -/
theorem c5_counterexample_price_zero :
    (callTool ⟨"key", none, some "tok"⟩ (fun _ => .ok .null) "update_listing"
        [("shop_id", .num 1), ("listing_id", .num 2), ("price", .num 0)]).1 =
      [⟨.patch, "/application/shops/1/listings/2", [],
        some (updateListingBody
          [("shop_id", .num 1), ("listing_id", .num 2), ("price", .num 0)])⟩] ∧
    updateListingBody [("shop_id", .num 1), ("listing_id", .num 2), ("price", .num 0)] =
      .obj [] ∧
    ¬ updateListingBody [("shop_id", .num 1), ("listing_id", .num 2), ("price", .num 0)] =
        .obj [("price", .num 0)] := by
  refine ⟨rfl, rfl, ?_⟩
  intro h
  rw [show updateListingBody
      [("shop_id", .num 1), ("listing_id", .num 2), ("price", .num 0)] = .obj [] from rfl] at h
  simp at h

/-- The optional request fields of each operation, under the same key in
the outgoing query string or body as in the argument bag (the only renamed
copy, `image_url` to `image`, is unconditional and therefore not listed). -/
def optionalFieldsOf (name : String) : List String :=
  if name = "search_listings" then ["min_price", "max_price", "sort_on", "sort_order"]
  else if name = "get_listing" then ["includes"]
  else if name = "find_shops" then ["location"]
  else if name = "create_listing" then ["shipping_profile_id", "shop_section_id", "tags"]
  else if name = "update_listing" then
    ["title", "description", "price", "quantity", "tags", "shop_section_id"]
  else if name = "update_listing_inventory" then
    ["price_on_property", "quantity_on_property", "sku_on_property"]
  else if name = "upload_listing_image" then ["rank", "alt_text"]
  else if name = "update_shop" then
    ["title", "announcement", "sale_message", "policy_welcome"]
  else []

/-- C5 (amended): `update_listing` invoked with a token configured and
only `price` set among the optional mutable fields, with a truthy price
value (any nonzero number), sends one PATCH whose body is exactly
`{price: <value>}`; and for every operation, an optional field absent from
the argument bag appears in neither the query parameters nor the body of
any outgoing request. -/
theorem c5_optional_field_omission (cfg : EtsyConfig) (tr : Transport) (args : ArgBag)
    (htok : cfg.hasToken = true) (v : Json) (hv : v.truthy = true)
    (hprice : args.get? "price" = some v)
    (h1 : args.get? "title" = none) (h2 : args.get? "description" = none)
    (h3 : args.get? "quantity" = none) (h4 : args.get? "tags" = none)
    (h5 : args.get? "shop_section_id" = none) :
    ((callTool cfg tr "update_listing" args).1 =
      [⟨.patch,
        "/application/shops/" ++ args.interp "shop_id" ++ "/listings/" ++
          args.interp "listing_id",
        [], some (.obj [("price", v)])⟩]) ∧
    (∀ cfg' : EtsyConfig, ∀ name ∈ knownTools, ∀ args' : ArgBag, ∀ k ∈ optionalFieldsOf name,
      args'.get? k = none →
      ∀ req ∈ (callTool cfg' tr name args').1,
        fieldLookup req.params k = none ∧ req.bodyField k = none) := by
  constructor
  · have hbody : updateListingBody args = .obj [("price", v)] := by
      simp [updateListingBody, h1, h2, h3, h4, h5, hprice, condTruthy, condDefined, hv]
    rw [callTool_fst]
    simp [selectHandler, updateListing, htok, runRequest_fst, hbody]
  · intro cfg' name hn args' k hk hnone req hreq
    rw [callTool_fst] at hreq
    simp only [knownTools, readTools, mutatingTools, List.mem_append, List.mem_cons,
      List.not_mem_nil, or_false] at hn
    rcases hn with (rfl | rfl | rfl | rfl | rfl | rfl | rfl | rfl | rfl | rfl) |
      rfl | rfl | rfl | rfl | rfl | rfl | rfl | rfl | rfl
    · simp [optionalFieldsOf] at hk
      simp [selectHandler, searchListings, runRequest_fst] at hreq
      subst hreq
      rcases hk with rfl | rfl | rfl | rfl <;>
        simp [searchListingsParams, fieldLookup_append, fieldLookup_condTruthy,
          fieldLookup_condDefined, fieldLookup, hnone, HttpRequest.bodyField]
    · simp [optionalFieldsOf] at hk
      subst hk
      simp [selectHandler, getListing, hnone, runRequest_fst] at hreq
      subst hreq
      simp [fieldLookup, HttpRequest.bodyField]
    · simp [optionalFieldsOf] at hk
    · simp [optionalFieldsOf] at hk
    · simp [optionalFieldsOf] at hk
    · simp [optionalFieldsOf] at hk
    · simp [optionalFieldsOf] at hk
    · simp [optionalFieldsOf] at hk
    · simp [optionalFieldsOf] at hk
    · simp [optionalFieldsOf] at hk
      subst hk
      simp [selectHandler, findShops, runRequest_fst] at hreq
      subst hreq
      simp [fieldLookup_append, fieldLookup_condTruthy, fieldLookup, hnone,
        HttpRequest.bodyField]
    · simp [optionalFieldsOf] at hk
      by_cases hT : cfg'.hasToken
      · simp [selectHandler, createListing, hT, runRequest_fst] at hreq
        subst hreq
        rcases hk with rfl | rfl | rfl <;>
          simp [createListingBody, fieldLookup_append, fieldLookup_condTruthy,
            fieldLookup_condDefined, fieldLookup, hnone, HttpRequest.bodyField, Json.field]
      · simp [selectHandler, createListing, hT] at hreq
    · simp [optionalFieldsOf] at hk
      by_cases hT : cfg'.hasToken
      · simp [selectHandler, updateListing, hT, runRequest_fst] at hreq
        subst hreq
        rcases hk with rfl | rfl | rfl | rfl | rfl | rfl <;>
          simp [updateListingBody, fieldLookup_append, fieldLookup_condTruthy,
            fieldLookup_condDefined, fieldLookup, hnone, HttpRequest.bodyField, Json.field]
      · simp [selectHandler, updateListing, hT] at hreq
    · simp [optionalFieldsOf] at hk
    · simp [optionalFieldsOf] at hk
      by_cases hT : cfg'.hasToken
      · simp [selectHandler, updateListingInventory, hT, runRequest_fst] at hreq
        subst hreq
        rcases hk with rfl | rfl | rfl <;>
          simp [updateListingInventoryBody, fieldLookup_append, fieldLookup_condTruthy,
            fieldLookup_condDefined, fieldLookup, hnone, HttpRequest.bodyField, Json.field]
      · simp [selectHandler, updateListingInventory, hT] at hreq
    · simp [optionalFieldsOf] at hk
      by_cases hT : cfg'.hasToken
      · simp [selectHandler, uploadListingImage, hT, runRequest_fst] at hreq
        subst hreq
        rcases hk with rfl | rfl <;>
          simp [uploadListingImageBody, fieldLookup_append, fieldLookup_condTruthy,
            fieldLookup_condDefined, fieldLookup, hnone, HttpRequest.bodyField, Json.field]
      · simp [selectHandler, uploadListingImage, hT] at hreq
    · simp [optionalFieldsOf] at hk
    · simp [optionalFieldsOf] at hk
    · simp [optionalFieldsOf] at hk
    · simp [optionalFieldsOf] at hk
      by_cases hT : cfg'.hasToken
      · simp [selectHandler, updateShop, hT, runRequest_fst] at hreq
        subst hreq
        rcases hk with rfl | rfl | rfl | rfl <;>
          simp [updateShopBody, fieldLookup_append, fieldLookup_condTruthy,
            fieldLookup_condDefined, fieldLookup, hnone, HttpRequest.bodyField, Json.field]
      · simp [selectHandler, updateShop, hT] at hreq


/-- Witness for C5 at a concrete input: `update_listing` with only
`price` 5 set produces the body `{price: 5}` and nothing else. -/
theorem c5_optional_field_omission_witness :
    (callTool ⟨"key", none, some "tok"⟩ (fun _ => .ok .null) "update_listing"
        [("shop_id", .num 1), ("listing_id", .num 2), ("price", .num 5)]).1 =
      [⟨.patch, "/application/shops/1/listings/2", [], some (.obj [("price", .num 5)])⟩] :=
  (c5_optional_field_omission ⟨"key", none, some "tok"⟩ (fun _ => .ok .null)
    [("shop_id", .num 1), ("listing_id", .num 2), ("price", .num 5)]
    rfl (.num 5) rfl rfl rfl rfl rfl rfl rfl).1

/-- C6: server construction resolves each credential from the explicit
configuration object first (a truthy configured value wins), falling back
to the named environment variable; if the resolved identifying key is
empty, `createServer` throws the missing-key error and no credential
context (hence no dispatchable server instance) is produced. -/
theorem c6_create_server_key_required (config : Option ConfigInput) (env : ProcessEnv) :
    (∀ s, config.bind ConfigInput.apiKey = some s → s ≠ "" →
      createServer config env = .ok (resolveEtsyConfig config env) ∧
      (resolveEtsyConfig config env).apiKey = s) ∧
    (strTruthy (config.bind ConfigInput.apiKey) = false →
      ∀ s, env.etsyApiKey = some s → s ≠ "" →
      createServer config env = .ok (resolveEtsyConfig config env) ∧
      (resolveEtsyConfig config env).apiKey = s) ∧
    (strTruthy (config.bind ConfigInput.apiKey) = false →
      strTruthy env.etsyApiKey = false →
      createServer config env = .error missingKeyError) ∧
    (strTruthy (config.bind ConfigInput.accessToken) = true →
      (resolveEtsyConfig config env).accessToken = config.bind ConfigInput.accessToken) ∧
    (strTruthy (config.bind ConfigInput.accessToken) = false →
      (resolveEtsyConfig config env).accessToken = env.etsyAccessToken) := by
  refine ⟨?_, ?_, ?_, ?_, ?_⟩
  · intro s hs hne
    have h2 : strTruthy (some s) = true := by simp [strTruthy, hne]
    constructor
    · simp [createServer, resolveEtsyConfig, strOr, hs, h2, hne]
    · simp [resolveEtsyConfig, strOr, hs, h2]
  · intro hc s hs hne
    have h2 : strTruthy (some s) = true := by simp [strTruthy, hne]
    constructor
    · simp [createServer, resolveEtsyConfig, strOr, hc, hs, h2, hne]
    · simp [resolveEtsyConfig, strOr, hc, hs, h2]
  · intro hc he
    have h0 : strTruthy (some "") = false := by simp [strTruthy]
    simp [createServer, resolveEtsyConfig, strOr, hc, he, h0, missingKeyError]
  · intro h
    simp [resolveEtsyConfig, strOr, h]
  · intro h
    simp [resolveEtsyConfig, strOr, h]

/-- Witness for C6 at a concrete input: with neither a configuration
object nor environment variables, construction fails fast. -/
theorem c6_create_server_key_required_witness :
    createServer none ⟨none, none, none⟩ = .error missingKeyError :=
  (c6_create_server_key_required none ⟨none, none, none⟩).2.2.1 rfl rfl

/-- Counterexample to C7 as stated: `get_listing` is a read operation, yet
dispatched with `includes` bound to the number `5` it performs zero HTTP
calls, because `args.includes?.join(",")` throws a `TypeError` (numbers
have no callable `join` member) before the transport is reached, and the
non-axios error is re-thrown. -/
theorem c7_counterexample_includes_typeerror :
    "get_listing" ∈ readTools ∧
    callTool ⟨"key", none, none⟩ (fun _ => .ok .null) "get_listing"
        [("listing_id", .num 1), ("includes", .num 5)] =
      ([], .error ⟨false, "args.includes.join is not a function", none⟩) ∧
    ¬ ((callTool ⟨"key", none, none⟩ (fun _ => .ok .null) "get_listing"
        [("listing_id", .num 1), ("includes", .num 5)]).1.length = 1) := by
  refine ⟨by simp [readTools], rfl, ?_⟩
  intro h
  rw [show (callTool ⟨"key", none, none⟩ (fun _ => .ok .null) "get_listing"
      [("listing_id", .num 1), ("includes", .num 5)]).1 = [] from rfl] at h
  simp at h

/-- C7 (amended): for every read operation and every argument bag — for
`get_listing`, one whose `includes` field is absent, `null`, or an array,
so that `join` does not throw — dispatch performs exactly one HTTP call
whether or not an access token is configured (the read handlers do not
take the credential context at all, so they never consult the token). -/
theorem c7_read_ops_one_call (name : String) (hname : name ∈ readTools)
    (cfg : EtsyConfig) (tr : Transport) (args : ArgBag)
    (hinc : name = "get_listing" → includesJoinable args = true) :
    (callTool cfg tr name args).1.length = 1 := by
  rw [callTool_fst]
  simp only [readTools, List.mem_cons, List.not_mem_nil, or_false] at hname
  rcases hname with rfl | rfl | rfl | rfl | rfl | rfl | rfl | rfl | rfl | rfl
  case inr.inl =>
    have hj := hinc rfl
    rcases hgi : args.get? "includes" with - | v
    · simp [selectHandler, getListing, hgi, runRequest_fst]
    · cases v <;> simp [includesJoinable, hgi] at hj <;>
        simp [selectHandler, getListing, hgi, runRequest_fst]
  all_goals
    simp [selectHandler, searchListings, getShop, getShopListings, searchShops,
      getListingInventory, getListingImages, getShopSections, getTrendingListings,
      findShops, runRequest_fst]

/-- Witness for C7 at a concrete input: `get_shop` with no token
configured performs exactly one HTTP call. -/
theorem c7_read_ops_one_call_witness :
    (callTool ⟨"key", none, none⟩ (fun _ => .ok .null) "get_shop"
        [("shop_id", .num 3)]).1.length = 1 :=
  c7_read_ops_one_call "get_shop" (by simp [readTools]) ⟨"key", none, none⟩
    (fun _ => .ok .null) [("shop_id", .num 3)] (fun h => by simp at h)

/-- Every envelope a handler returns from its HTTP call is built by
`mkEnvelope`. -/
theorem runRequest_ok (tr : Transport) (req : HttpRequest) (fmt : Json → Json)
    (env : Envelope) (h : (runRequest tr req fmt).2 = .ok env) :
    ∃ j, env = mkEnvelope j := by
  cases htr : tr req with
  | ok d =>
      refine ⟨fmt d, ?_⟩
      simp [runRequest, htr] at h
      exact h.symm
  | error e => simp [runRequest, htr] at h

/-- Every envelope the dispatch switch returns without throwing is built by
`mkEnvelope` (auth refusals included). -/
theorem selectHandler_ok_shape (cfg : EtsyConfig) (tr : Transport) (name : String)
    (args : ArgBag) (env : Envelope)
    (h : (selectHandler cfg tr name args).2 = .ok env) :
    ∃ j, env = mkEnvelope j := by
  by_cases hname : name ∈ knownTools
  case neg =>
    simp only [knownTools, readTools, mutatingTools, List.mem_append, List.mem_cons,
      List.not_mem_nil, or_false, not_or] at hname
    obtain ⟨⟨h1, h2, h3, h4, h5, h6, h7, h8, h9, h10⟩,
      h11, h12, h13, h14, h15, h16, h17, h18, h19⟩ := hname
    simp [selectHandler, h1, h2, h3, h4, h5, h6, h7, h8, h9, h10,
      h11, h12, h13, h14, h15, h16, h17, h18, h19] at h
  case pos =>
  simp only [knownTools, readTools, mutatingTools, List.mem_append, List.mem_cons,
    List.not_mem_nil, or_false] at hname
  rcases hname with (rfl | rfl | rfl | rfl | rfl | rfl | rfl | rfl | rfl | rfl) |
    rfl | rfl | rfl | rfl | rfl | rfl | rfl | rfl | rfl
  case inl.inr.inl =>
    rcases hgi : args.get? "includes" with - | v
    · rw [show selectHandler cfg tr "get_listing" args = getListing tr args from rfl] at h
      unfold getListing at h
      rw [hgi] at h
      exact runRequest_ok _ _ _ _ h
    · cases v
      case null =>
        rw [show selectHandler cfg tr "get_listing" args = getListing tr args from rfl] at h
        unfold getListing at h
        rw [hgi] at h
        exact runRequest_ok _ _ _ _ h
      case arr xs =>
        rw [show selectHandler cfg tr "get_listing" args = getListing tr args from rfl] at h
        unfold getListing at h
        rw [hgi] at h
        exact runRequest_ok _ _ _ _ h
      all_goals simp [selectHandler, getListing, hgi] at h
  -- the nine remaining read operations
  case inl.inl => exact runRequest_ok _ _ _ _ h
  case inl.inr.inr.inl => exact runRequest_ok _ _ _ _ h
  case inl.inr.inr.inr.inl => exact runRequest_ok _ _ _ _ h
  case inl.inr.inr.inr.inr.inl => exact runRequest_ok _ _ _ _ h
  case inl.inr.inr.inr.inr.inr.inl => exact runRequest_ok _ _ _ _ h
  case inl.inr.inr.inr.inr.inr.inr.inl => exact runRequest_ok _ _ _ _ h
  case inl.inr.inr.inr.inr.inr.inr.inr.inl => exact runRequest_ok _ _ _ _ h
  case inl.inr.inr.inr.inr.inr.inr.inr.inr.inl => exact runRequest_ok _ _ _ _ h
  case inl.inr.inr.inr.inr.inr.inr.inr.inr.inr => exact runRequest_ok _ _ _ _ h
  -- the nine mutating operations
  all_goals
    by_cases hT : cfg.hasToken
  all_goals
    first
    | (simp [selectHandler, createListing, updateListing, deleteListing,
         updateListingInventory, uploadListingImage, createShopSection,
         updateShopSection, deleteShopSection, updateShop, hT] at h
       first
       | exact ⟨authRequiredJson, h.symm⟩
       | exact ⟨authRequiredJson, h⟩
       | exact runRequest_ok _ _ _ _ h)

/-- C8: for every known operation and every non-throwing outcome (HTTP
success, missing-token refusal, or caught transport failure), the single
returned envelope has a content array of exactly one element of type
`text` whose text is the 2-space pretty-printed JSON serialization of some
JSON value (`callTool` returns exactly one such envelope per
invocation). -/
theorem c8_envelope_uniform_shape (name : String) (_hname : name ∈ knownTools)
    (cfg : EtsyConfig) (tr : Transport) (args : ArgBag) (env : Envelope)
    (hok : (callTool cfg tr name args).2 = .ok env) :
    ∃ j, env = mkEnvelope j ∧ env.content.length = 1 ∧
      ∀ c ∈ env.content, c.type = "text" ∧ c.text = Json.stringify2 j := by
  have hshape : ∃ j, env = mkEnvelope j := by
    rcases hsel : selectHandler cfg tr name args with ⟨reqs, out⟩
    cases out with
    | ok env' =>
        have heq : env' = env := by
          simp [callTool, hsel] at hok
          exact hok
        subst heq
        exact selectHandler_ok_shape cfg tr name args env' (by rw [hsel])
    | error e =>
        by_cases he : e.isAxiosError
        · have heq : env = mkEnvelope (axiosFailureJson e) := by
            simp [callTool, hsel, he] at hok
            exact hok.symm
          exact ⟨axiosFailureJson e, heq⟩
        · simp [callTool, hsel, he] at hok
  obtain ⟨j, hj⟩ := hshape
  subst hj
  exact ⟨j, rfl, rfl, by simp [mkEnvelope]⟩

/-- Witness for C8 at a concrete input: a successful `search_listings`
yields the envelope of the stubbed response body. -/
theorem c8_envelope_uniform_shape_witness :
    ∃ j, mkEnvelope (.obj [("count", .num 1)]) = mkEnvelope j ∧
      (mkEnvelope (.obj [("count", .num 1)])).content.length = 1 ∧
      ∀ c ∈ (mkEnvelope (.obj [("count", .num 1)])).content,
        c.type = "text" ∧ c.text = Json.stringify2 j :=
  c8_envelope_uniform_shape "search_listings" (by simp [knownTools, readTools])
    ⟨"key", none, none⟩ (fun _ => .ok (.obj [("count", .num 1)]))
    [("keywords", .str "handmade jewelry")] (mkEnvelope (.obj [("count", .num 1)])) rfl

/-- C9: with a token configured and a successful HTTP call,
`delete_listing` and `delete_shop_section` return envelopes carrying their
constant success objects regardless of the marketplace response body, and
every other known operation's success envelope is exactly the response
body. -/
theorem c9_delete_constant_envelopes (cfg : EtsyConfig) (args : ArgBag) (d : Json)
    (htok : cfg.hasToken = true) :
    ((callTool cfg (fun _ => .ok d) "delete_listing" args).2 =
      .ok (mkEnvelope deleteListingSuccessJson)) ∧
    ((callTool cfg (fun _ => .ok d) "delete_shop_section" args).2 =
      .ok (mkEnvelope deleteShopSectionSuccessJson)) ∧
    (∀ name ∈ knownTools, name ≠ "delete_listing" → name ≠ "delete_shop_section" →
      (name = "get_listing" → includesJoinable args = true) →
      (callTool cfg (fun _ => .ok d) name args).2 = .ok (mkEnvelope d)) := by
  refine ⟨?_, ?_, ?_⟩
  · simp [callTool, selectHandler, deleteListing, htok, runRequest]
  · simp [callTool, selectHandler, deleteShopSection, htok, runRequest]
  · intro name hn hne1 hne2 hinc
    simp only [knownTools, readTools, mutatingTools, List.mem_append, List.mem_cons,
      List.not_mem_nil, or_false] at hn
    rcases hn with (rfl | rfl | rfl | rfl | rfl | rfl | rfl | rfl | rfl | rfl) |
      rfl | rfl | rfl | rfl | rfl | rfl | rfl | rfl | rfl
    case inl.inr.inl =>
      have hj := hinc rfl
      rcases hgi : args.get? "includes" with - | v
      · simp [callTool, selectHandler, getListing, hgi, runRequest]
      · cases v <;> simp [includesJoinable, hgi] at hj <;>
          simp [callTool, selectHandler, getListing, hgi, runRequest]
    case refine_3.inr.inr.inr.inl => exact absurd rfl hne1
    case refine_3.inr.inr.inr.inr.inr.inr.inr.inr.inl => exact absurd rfl hne2
    all_goals
      simp [callTool, selectHandler, searchListings, getShop, getShopListings,
        searchShops, getListingInventory, getListingImages, getShopSections,
        getTrendingListings, findShops, createListing, updateListing,
        updateListingInventory, uploadListingImage, createShopSection,
        updateShopSection, updateShop, htok, runRequest]

/-- Witness for C9 at a concrete input: both delete operations ignore the
stubbed response body. -/
theorem c9_delete_constant_envelopes_witness :
    ((callTool ⟨"key", none, some "tok"⟩ (fun _ => .ok (.obj [("ignored", .bool true)]))
        "delete_listing" [("listing_id", .num 9)]).2 =
      .ok (mkEnvelope deleteListingSuccessJson)) ∧
    ((callTool ⟨"key", none, some "tok"⟩ (fun _ => .ok (.obj [("ignored", .bool true)]))
        "delete_shop_section" [("shop_id", .num 1), ("shop_section_id", .num 2)]).2 =
      .ok (mkEnvelope deleteShopSectionSuccessJson)) :=
  ⟨(c9_delete_constant_envelopes ⟨"key", none, some "tok"⟩ [("listing_id", .num 9)]
      (.obj [("ignored", .bool true)]) rfl).1,
   (c9_delete_constant_envelopes ⟨"key", none, some "tok"⟩
      [("shop_id", .num 1), ("shop_section_id", .num 2)]
      (.obj [("ignored", .bool true)]) rfl).2.1⟩

/-- C10: in `update_listing` (token configured) each of `title`,
`description`, `price`, `quantity`, `tags` supplied with a falsy value (0,
empty string, false, null) is silently omitted from the outgoing PATCH
body, whereas `shop_section_id` is included whenever the field is supplied
at all, including at value 0; `update_shop` likewise omits any
supplied-but-falsy `title`, `announcement`, `sale_message`,
`policy_welcome`. -/
theorem c10_truthiness_gating (cfg : EtsyConfig) (tr : Transport) (args : ArgBag)
    (htok : cfg.hasToken = true) :
    ((callTool cfg tr "update_listing" args).1 =
      [⟨.patch,
        "/application/shops/" ++ args.interp "shop_id" ++ "/listings/" ++
          args.interp "listing_id",
        [], some (updateListingBody args)⟩]) ∧
    (∀ f ∈ ["title", "description", "price", "quantity", "tags"], ∀ v : Json,
      args.get? f = some v → v.truthy = false →
      (updateListingBody args).field f = none) ∧
    (∀ v : Json, args.get? "shop_section_id" = some v →
      (updateListingBody args).field "shop_section_id" = some v) ∧
    ((callTool cfg tr "update_shop" args).1 =
      [⟨.put, "/application/shops/" ++ args.interp "shop_id", [],
        some (updateShopBody args)⟩]) ∧
    (∀ f ∈ ["title", "announcement", "sale_message", "policy_welcome"], ∀ v : Json,
      args.get? f = some v → v.truthy = false →
      (updateShopBody args).field f = none) := by
  refine ⟨?_, ?_, ?_, ?_, ?_⟩
  · rw [callTool_fst]
    simp [selectHandler, updateListing, htok, runRequest_fst]
  · intro f hf v hv hfalse
    simp only [List.mem_cons, List.not_mem_nil, or_false] at hf
    rcases hf with rfl | rfl | rfl | rfl | rfl <;>
      simp [updateListingBody, Json.field, fieldLookup_append, fieldLookup_condTruthy,
        fieldLookup_condDefined, fieldLookup, hv, hfalse]
  · intro v hv
    simp [updateListingBody, Json.field, fieldLookup_append, fieldLookup_condTruthy,
      fieldLookup_condDefined, fieldLookup, hv]
  · rw [callTool_fst]
    simp [selectHandler, updateShop, htok, runRequest_fst]
  · intro f hf v hv hfalse
    simp only [List.mem_cons, List.not_mem_nil, or_false] at hf
    rcases hf with rfl | rfl | rfl | rfl <;>
      simp [updateShopBody, Json.field, fieldLookup_append, fieldLookup_condTruthy,
        fieldLookup_condDefined, fieldLookup, hv, hfalse]

/-- Witness for C10 at a concrete input: a supplied `price` 0 is dropped
while a supplied `shop_section_id` 0 is kept. -/
theorem c10_truthiness_gating_witness :
    (updateListingBody
        [("shop_id", .num 1), ("listing_id", .num 2), ("price", .num 0),
         ("shop_section_id", .num 0)]).field "price" = none ∧
    (updateListingBody
        [("shop_id", .num 1), ("listing_id", .num 2), ("price", .num 0),
         ("shop_section_id", .num 0)]).field "shop_section_id" = some (.num 0) :=
  ⟨(c10_truthiness_gating ⟨"key", none, some "tok"⟩ (fun _ => .ok .null)
      [("shop_id", .num 1), ("listing_id", .num 2), ("price", .num 0),
       ("shop_section_id", .num 0)] rfl).2.1 "price" (by simp) (.num 0) rfl rfl,
   (c10_truthiness_gating ⟨"key", none, some "tok"⟩ (fun _ => .ok .null)
      [("shop_id", .num 1), ("listing_id", .num 2), ("price", .num 0),
       ("shop_section_id", .num 0)] rfl).2.2.1 (.num 0) rfl⟩

end EtsyMCP
